import Mathlib

/-!
Shallow embedding of the Azure_AI_Search_Hybrid repository
(src/AzureSearch.py and src/openai.py).

The external managed services (Azure Cognitive Search, Azure OpenAI) are
modelled as oracles packaged in `Env`; every operation of the two scripts
returns its result together with the ordered list of service calls it issued.
Exceptions raised by a service are modelled with `Except`; the blanket
try/except blocks of the source become branches on the oracle outcome.
-/

namespace AzureRAG

/-- A search document / search result: the Python dicts with keys id, title,
content, category; a key that is absent (or bound to None) is `none`. -/
structure Doc where
  id : Option String
  title : Option String
  content : Option String
  category : Option String
deriving DecidableEq

/-- A query sent to the search service: the arguments of
`search_client.search(search_text, filter=..., top=...)`. -/
structure SearchRequest where
  searchText : String
  filter : Option String
  top : Option Nat
deriving DecidableEq

/-- A chat message, `\x7b"role": ..., "content": ...\x7d`. -/
structure ChatMessage where
  role : String
  content : String
deriving DecidableEq

/-- One element of `response.choices`. -/
structure Choice where
  message : ChatMessage
deriving DecidableEq

/-- A chat-completions response. -/
structure CompletionResponse where
  choices : List Choice
deriving DecidableEq

/-- The arguments of `openai_client.chat.completions.create(...)`. -/
structure CompletionRequest where
  model : String
  messages : List ChatMessage
  maxTokens : Nat
deriving DecidableEq

/-- One field of a search-index schema, with the SDK flags the source sets. -/
structure SearchField where
  name : String
  fieldType : String
  key : Bool
  searchable : Bool
  filterable : Bool
  facetable : Bool
  retrievable : Bool
deriving DecidableEq

/-- A search-index definition, `SearchIndex(name=..., fields=...)`. -/
structure SearchIndex where
  name : String
  fields : List SearchField
deriving DecidableEq

/-- `azure.search.documents.indexes.models.SimpleField`: never searchable; the
flags the source passes are `key`, `filterable`, `facetable` (SDK default for
each is false, retrievable defaults to true). -/
def SimpleField (name fieldType : String) (key filterable facetable : Bool) :
    SearchField :=
  { name := name, fieldType := fieldType, key := key, searchable := false,
    filterable := filterable, facetable := facetable, retrievable := true }

/-- `SearchableField`: the source passes `retrievable` and `searchable`
explicitly; the remaining flags keep their SDK default of false. -/
def SearchableField (name fieldType : String) (retrievable searchable : Bool) :
    SearchField :=
  { name := name, fieldType := fieldType, key := false, searchable := searchable,
    filterable := false, facetable := false, retrievable := retrievable }

/-- The observable calls made to the external services, in program order. -/
inductive ServiceCall where
  | createIndex (index : SearchIndex)
  | uploadBatch (docs : List Doc)
  | search (req : SearchRequest)
  | completion (req : CompletionRequest)
deriving DecidableEq

/-- Upload outcome for one document (`result["key"]`, `result["status"]`). -/
structure UploadResult where
  key : String
  status : String
deriving DecidableEq

/-- The external services, plus the configured deployment name
(`self.openai_deployment_name`).  An `Except.error` models the service call
raising an exception. -/
structure Env where
  searchSvc : SearchRequest → Except String (List Doc)
  completionSvc : CompletionRequest → Except String CompletionResponse
  createIndexSvc : SearchIndex → Except String Unit
  uploadSvc : List Doc → Except String (List UploadResult)
  deploymentName : String

/-- Python truthiness of an optional string: None and "" are falsy. -/
def pyTruthy : Option String → Bool
  | none => false
  | some s => !s.isEmpty

/-- Python `x or d` for an optional string `x`. -/
def pyOr (x : Option String) (d : String) : String :=
  match x with
  | none => d
  | some s => if s.isEmpty then d else s

/-! ## src/openai.py : RAGSearchSystem -/

/-- The Python default value of the `top_k` parameter of `semantic_search`. -/
def semantic_search_default_top_k : Nat := 5

/-- The request `semantic_search` sends: `search(search_text=query, top=top_k)`. -/
def semanticSearchRequest (query : String) (top_k : Nat) : SearchRequest :=
  { searchText := query, filter := none, top := some top_k }

/-- `RAGSearchSystem.semantic_search`: one search call with `top=top_k`; on any
exception the error is printed and the empty list returned. -/
def semantic_search (env : Env) (query : String) (top_k : Nat) :
    List Doc × List ServiceCall :=
  let req := semanticSearchRequest query top_k
  match env.searchSvc req with
  | Except.ok rs => (rs, [ServiceCall.search req])
  | Except.error _ => ([], [ServiceCall.search req])

/-- One per-result line of the context, with `.get` defaults of "":
`Title: ...\nContent: ...`. -/
def resultEntry (r : Doc) : String :=
  "Title: " ++ r.title.getD "" ++ "\nContent: " ++ r.content.getD ""

/-- Python `sep.join(xs)`. -/
def joinSep (sep : String) : List String → String
  | [] => ""
  | [a] => a
  | a :: b :: rest => a ++ sep ++ joinSep sep (b :: rest)

/-- The `context` string of `generate_response`. -/
def buildContext (search_results : List Doc) : String :=
  joinSep "\n\n" (search_results.map resultEntry)

/-- The text of the prompt template before the interpolated context. -/
def promptPre : String := "\n        Context: "

/-- The text of the prompt template between the context and the query. -/
def promptMid : String := "\n        \n        Query: "

/-- The text of the prompt template after the interpolated query. -/
def promptPost : String :=
  "\n        \n        Based on the provided context, generate a comprehensive and precise answer to the query.\n        If the context doesn\x27t contain sufficient information, acknowledge that transparently.\n        "

/-- The single prompt `generate_response` builds from the template. -/
def buildPrompt (query : String) (search_results : List Doc) : String :=
  promptPre ++ buildContext search_results ++ promptMid ++ query ++ promptPost

/-- The fixed system message of the completion call. -/
def systemMessage : ChatMessage :=
  { role := "system",
    content := "You are a helpful AI assistant that answers questions based on provided context." }

/-- The one completion request `generate_response` issues. -/
def genRequest (env : Env) (query : String) (search_results : List Doc) :
    CompletionRequest :=
  { model := env.deploymentName,
    messages := [systemMessage,
                 { role := "user", content := buildPrompt query search_results }],
    maxTokens := 300 }

/-- The fixed string returned when generation fails. -/
def fallbackResponse : String := "I\x27m unable to generate a response at the moment."

/-- `RAGSearchSystem.generate_response`: one completion call; any exception --
including the IndexError from `response.choices[0]` when no choice is present --
is caught, the error printed, and the fixed fallback string returned. -/
def generate_response (env : Env) (query : String) (search_results : List Doc) :
    String × List ServiceCall :=
  let req := genRequest env query search_results
  match env.completionSvc req with
  | Except.ok resp =>
    match resp.choices with
    | [] => (fallbackResponse, [ServiceCall.completion req])
    | c :: _ => (c.message.content, [ServiceCall.completion req])
  | Except.error _ => (fallbackResponse, [ServiceCall.completion req])

/-- `RAGSearchSystem.rag_search`: semantic search first (with the default
top_k), then generation on the retrieved results. -/
def rag_search (env : Env) (query : String) :
    (List Doc × String) × List ServiceCall :=
  let s := semantic_search env query semantic_search_default_top_k
  let g := generate_response env query s.1
  ((s.1, g.1), s.2 ++ g.2)

/-! ## src/AzureSearch.py : AzureCognitiveSearchManager -/

/-- The field list of `create_index`, exactly as the source builds it. -/
def index_fields : List SearchField :=
  [SimpleField "id" "Edm.String" true false false,
   SearchableField "title" "Edm.String" true true,
   SearchableField "content" "Edm.String" true true,
   SimpleField "category" "Edm.String" false true true]

/-- `AzureCognitiveSearchManager.create_index`: build the index object and
attempt creation once; a failure is caught and printed. -/
def create_index (env : Env) (index_name : String) : Unit × List ServiceCall :=
  let index : SearchIndex := { name := index_name, fields := index_fields }
  match env.createIndexSvc index with
  | Except.ok _ => ((), [ServiceCall.createIndex index])
  | Except.error _ => ((), [ServiceCall.createIndex index])

/-- Slicing of `documents[i:i+batch_size]` along `range(0, len, batch_size)`,
written with explicit fuel so it computes by reduction (for bs at least 1 and
fuel at least the list length it is the slice loop of the source). -/
def chunkByFuel (bs : Nat) : Nat → List Doc → List (List Doc)
  | _, [] => []
  | 0, l => [l]
  | fuel + 1, a :: rest =>
    (a :: rest.take (bs - 1)) :: chunkByFuel bs fuel (rest.drop (bs - 1))

/-- The consecutive batches `documents[i:i+bs]` of the upload loop. -/
def chunkBy (bs : Nat) (l : List Doc) : List (List Doc) :=
  chunkByFuel bs l.length l

/-- The loop body of `upload_documents`: upload batches in order; the first
failing batch raises, the exception is caught, and the loop is abandoned. -/
def uploadBatches (env : Env) : List (List Doc) → List ServiceCall
  | [] => []
  | b :: bs =>
    match env.uploadSvc b with
    | Except.ok _ => ServiceCall.uploadBatch b :: uploadBatches env bs
    | Except.error _ => [ServiceCall.uploadBatch b]

/-- `AzureCognitiveSearchManager.upload_documents`: a falsy document list
returns immediately with no service call; otherwise batches of 1000. -/
def upload_documents (env : Env) (documents : List Doc) :
    Unit × List ServiceCall :=
  if documents.isEmpty then ((), [])
  else ((), uploadBatches env (chunkBy 1000 documents))

/-- `_print_search_result` evaluates `result.get("content")[:200]`; when the
content value is missing that is `None[:200]`, a TypeError.  Printing the whole
result list therefore succeeds iff every result has a content value. -/
def printableResults (rs : List Doc) : Bool :=
  rs.all fun r => r.content.isSome

/-- The request of `search_by_keyword`: `search(search_term)`. -/
def keywordRequest (search_term : String) : SearchRequest :=
  { searchText := search_term, filter := none, top := none }

/-- `AzureCognitiveSearchManager.search_by_keyword`: one search call; results
are printed (which raises on a missing content value) and returned; any
exception is caught, printed, and the empty list returned. -/
def search_by_keyword (env : Env) (search_term : String) :
    List Doc × List ServiceCall :=
  let req := keywordRequest search_term
  match env.searchSvc req with
  | Except.ok rs =>
    if printableResults rs then (rs, [ServiceCall.search req])
    else ([], [ServiceCall.search req])
  | Except.error _ => ([], [ServiceCall.search req])

/-- The interpolated filter `f"category eq \x27\x7bcategory\x7d\x27"`. -/
def categoryFilter (category : String) : String :=
  "category eq \x27" ++ category ++ "\x27"

/-- The request of `search_by_category`: match-all text with the filter. -/
def categoryRequest (category : String) : SearchRequest :=
  { searchText := "*", filter := some (categoryFilter category), top := none }

/-- `AzureCognitiveSearchManager.search_by_category`. -/
def search_by_category (env : Env) (category : String) :
    List Doc × List ServiceCall :=
  let req := categoryRequest category
  match env.searchSvc req with
  | Except.ok rs =>
    if printableResults rs then (rs, [ServiceCall.search req])
    else ([], [ServiceCall.search req])
  | Except.error _ => ([], [ServiceCall.search req])

/-- The request of `advanced_search`: `search_term or "*"`, the category filter
when the category is truthy, and `top=minimum_results`. -/
def advancedRequest (search_term category : Option String)
    (minimum_results : Nat) : SearchRequest :=
  { searchText := pyOr search_term "*",
    filter := if pyTruthy category then some (categoryFilter (category.getD ""))
              else none,
    top := some minimum_results }

/-- `AzureCognitiveSearchManager.advanced_search`. -/
def advanced_search (env : Env) (search_term category : Option String)
    (minimum_results : Nat) : List Doc × List ServiceCall :=
  let req := advancedRequest search_term category minimum_results
  match env.searchSvc req with
  | Except.ok rs =>
    if printableResults rs then (rs, [ServiceCall.search req])
    else ([], [ServiceCall.search req])
  | Except.error _ => ([], [ServiceCall.search req])

/-! ## src/AzureSearch.py : module-level initialization and main -/

/-- Build a fully populated sample document. -/
def mkDoc (id title content category : String) : Doc :=
  { id := some id, title := some title, content := some content,
    category := some category }

/-- The 15 sample documents of `main`. -/
def sample_documents : List Doc :=
  [mkDoc "1" "Azure AI Search" "Azure AI Search is a powerful tool for enterprise search." "Azure",
   mkDoc "2" "RAG Systems" "RAG combines retrieval and generation for better answers." "AI",
   mkDoc "3" "Machine Learning" "ML enables systems to learn and adapt over time." "ML",
   mkDoc "4" "Natural Language Processing" "NLP techniques enable machines to understand human language." "AI",
   mkDoc "5" "Computer Vision" "Computer vision is transforming image recognition and analysis." "Vision",
   mkDoc "6" "Azure Functions" "Azure Functions offer a serverless compute service." "Azure",
   mkDoc "7" "Generative AI" "Generative AI creates new content using machine learning." "AI",
   mkDoc "8" "Data Science" "Data science combines statistics and AI to extract insights." "Data",
   mkDoc "9" "Cloud Computing" "Cloud computing enables scalable and on-demand IT resources." "Cloud",
   mkDoc "10" "IoT Edge" "IoT Edge provides analytics and insights at the device level." "IoT",
   mkDoc "11" "Deep Learning" "Deep learning models are used for complex pattern recognition." "AI",
   mkDoc "12" "Quantum Computing" "Quantum computing harnesses quantum mechanics for faster computations." "Tech",
   mkDoc "13" "Blockchain Technology" "Blockchain provides secure, decentralized transaction management." "Tech",
   mkDoc "14" "5G Technology" "5G offers high-speed connectivity for advanced mobile networks." "Tech",
   mkDoc "15" "Edge Computing" "Edge computing processes data closer to the source for faster insights." "Cloud"]

/-- The index name `main` uses. -/
def main_index_name : String := "kirangajjana"

/-- Python `int(m) if m.isdigit() else 1` for the minimum-results input. -/
def parseMinResults (s : String) : Nat :=
  (s.toNat?).getD 1

/-- One non-exit iteration of the menu of `main`: the service calls the chosen
branch issues and the input left for the following iterations (an empty pair of
lists when `input()` has no further answer, ending the run). -/
def menuStep (env : Env) (choice : String) (rest : List String) :
    List ServiceCall × List String :=
  if choice = "1" then
    match rest with
    | [] => ([], [])
    | search_term :: rest1 => ((search_by_keyword env search_term).2, rest1)
  else if choice = "2" then
    match rest with
    | [] => ([], [])
    | category :: rest1 => ((search_by_category env category).2, rest1)
  else if choice = "3" then
    match rest with
    | search_term :: category :: min_results :: rest1 =>
      ((advanced_search env (some search_term) (some category)
        (parseMinResults min_results)).2, rest1)
    | _ => ([], [])
  else ([], rest)

/-- The menu loop of `main`, driven by the successive answers that `input()`
returns, with enough fuel; the loop ends when the user picks 4 (or when the
input runs out). -/
def menuLoopFuel (env : Env) : Nat → List String → List ServiceCall
  | _, [] => []
  | 0, _ => []
  | fuel + 1, choice :: rest =>
    if choice = "4" then []
    else
      (menuStep env choice rest).1
        ++ menuLoopFuel env fuel (menuStep env choice rest).2

/-- The interactive menu loop of `main` on a given list of input answers. -/
def menuLoop (env : Env) (inputs : List String) : List ServiceCall :=
  menuLoopFuel env inputs.length inputs

/-- The complete service-call trace of `main` in AzureSearch.py: create the
index, upload the sample documents, then run the menu loop. -/
def mainTrace (env : Env) (inputs : List String) : List ServiceCall :=
  (create_index env main_index_name).2
    ++ (upload_documents env sample_documents).2
    ++ menuLoop env inputs

/-- The configuration the module builds when validation passes. -/
structure ModuleConfig where
  serviceName : String
  apiKey : String
  endpoint : String
deriving DecidableEq

/-- The ValueError message of the module-level validation. -/
def missingEnvMessage : String :=
  "Missing required environment variables. Please check your .env file."

/-- Module-level initialization of AzureSearch.py: read the three environment
variables, raise ValueError unless all are truthy, then build the credential
and the index client (modelled by returning the configuration). -/
def moduleInit (getenv : String → Option String) :
    Except String ModuleConfig :=
  let sn := getenv "search_service_name"
  let ak := getenv "search_api_key"
  let ep := getenv "endpoint"
  if pyTruthy sn && pyTruthy ak && pyTruthy ep then
    Except.ok { serviceName := sn.getD "", apiKey := ak.getD "",
                endpoint := ep.getD "" }
  else
    Except.error missingEnvMessage

/-! ## Trace lemmas shared by several results -/

/-- `semantic_search` issues exactly one search call, whatever the outcome. -/
theorem semantic_search_trace (env : Env) (query : String) (top_k : Nat) :
    (semantic_search env query top_k).2 =
      [ServiceCall.search (semanticSearchRequest query top_k)] := by
  simp only [semantic_search]
  split <;> rfl

/-- `generate_response` issues exactly one completion call, whatever the
outcome. -/
theorem generate_response_trace (env : Env) (query : String) (rs : List Doc) :
    (generate_response env query rs).2 =
      [ServiceCall.completion (genRequest env query rs)] := by
  simp only [generate_response]
  split
  · split <;> rfl
  · rfl

/-- `search_by_keyword` issues exactly one search call. -/
theorem search_by_keyword_trace (env : Env) (search_term : String) :
    (search_by_keyword env search_term).2 =
      [ServiceCall.search (keywordRequest search_term)] := by
  simp only [search_by_keyword]
  split
  · split <;> rfl
  · rfl

/-- `search_by_category` issues exactly one search call. -/
theorem search_by_category_trace (env : Env) (category : String) :
    (search_by_category env category).2 =
      [ServiceCall.search (categoryRequest category)] := by
  simp only [search_by_category]
  split
  · split <;> rfl
  · rfl

/-- `advanced_search` issues exactly one search call. -/
theorem advanced_search_trace (env : Env) (search_term category : Option String)
    (minimum_results : Nat) :
    (advanced_search env search_term category minimum_results).2 =
      [ServiceCall.search (advancedRequest search_term category minimum_results)] := by
  simp only [advanced_search]
  split
  · split <;> rfl
  · rfl

/-! ## Helper lemmas about joining and chunking -/

/-- Every member of a joined list occurs contiguously in the join. -/
theorem joinSep_infix_of_mem (sep : String) :
    (l : List String) → ∀ s ∈ l, s.data <:+: (joinSep sep l).data
  | [], s, h => absurd h (List.not_mem_nil s)
  | [a], s, h => by
    rw [List.mem_singleton] at h
    subst h
    exact List.infix_rfl
  | a :: b :: rest, s, h => by
    rcases List.mem_cons.mp h with h | h
    · subst h
      show s.data <:+: (s ++ sep ++ joinSep sep (b :: rest)).data
      rw [String.data_append, String.data_append, List.append_assoc]
      exact (List.prefix_append s.data _).isInfix
    · exact (joinSep_infix_of_mem sep (b :: rest) s h).trans
        (List.suffix_append _ _).isInfix

/-- The concatenation of the joined pieces is a sublist of the join: the pieces
occur in the join in their original order. -/
theorem joinSep_flatten_sublist (sep : String) :
    (l : List String) → ((l.map String.data).flatten).Sublist (joinSep sep l).data
  | [] => by simp [joinSep]
  | [a] => by simp [joinSep]
  | a :: b :: rest => by
    have ih := joinSep_flatten_sublist sep (b :: rest)
    show (a.data ++ ((b :: rest).map String.data).flatten).Sublist
      ((a ++ sep ++ joinSep sep (b :: rest)).data)
    rw [String.data_append, String.data_append, List.append_assoc]
    exact (List.Sublist.refl a.data).append
      (ih.trans (List.sublist_append_right sep.data _))

/-- The character-level decomposition of the prompt template. -/
theorem buildPrompt_data (query : String) (rs : List Doc) :
    (buildPrompt query rs).data =
      promptPre.data ++ (buildContext rs).data ++ promptMid.data ++ query.data
        ++ promptPost.data := by
  simp only [buildPrompt, String.data_append]

/-- Concatenating the fuelled chunks gives back the original list. -/
theorem chunkByFuel_flatten (bs : Nat) :
    ∀ (fuel : Nat) (l : List Doc), l.length ≤ fuel →
      (chunkByFuel bs fuel l).flatten = l
  | fuel, [], _ => by cases fuel <;> rfl
  | 0, a :: rest, h => by simp at h
  | fuel + 1, a :: rest, h => by
    show ((a :: rest.take (bs - 1)) ::
      chunkByFuel bs fuel (rest.drop (bs - 1))).flatten = a :: rest
    rw [List.flatten_cons]
    rw [chunkByFuel_flatten bs fuel (rest.drop (bs - 1))
      (by simp only [List.length_drop]; simp at h; omega)]
    simp [List.take_append_drop]

/-- Every fuelled chunk has at most bs elements (bs at least 1, enough fuel). -/
theorem chunkByFuel_length_le (bs : Nat) (hbs : 1 ≤ bs) :
    ∀ (fuel : Nat) (l : List Doc), l.length ≤ fuel →
      ∀ b ∈ chunkByFuel bs fuel l, b.length ≤ bs
  | fuel, [], _, b, hb => by cases fuel <;> simp [chunkByFuel] at hb
  | 0, a :: rest, h, b, hb => by simp at h
  | fuel + 1, a :: rest, h, b, hb => by
    have hb2 : b = a :: rest.take (bs - 1) ∨
        b ∈ chunkByFuel bs fuel (rest.drop (bs - 1)) := List.mem_cons.mp hb
    rcases hb2 with rfl | hb2
    · simp only [List.length_cons, List.length_take]
      have := Nat.min_le_left (bs - 1) rest.length
      omega
    · refine chunkByFuel_length_le bs hbs fuel (rest.drop (bs - 1)) ?_ b hb2
      simp only [List.length_drop]
      simp at h
      omega

/-- When every upload succeeds, the loop uploads every batch, in order. -/
theorem uploadBatches_ok (env : Env)
    (h : ∀ b, ∃ u, env.uploadSvc b = Except.ok u) :
    ∀ bs : List (List Doc),
      uploadBatches env bs = bs.map ServiceCall.uploadBatch
  | [] => rfl
  | b :: rest => by
    obtain ⟨u, hu⟩ := h b
    simp only [uploadBatches, hu, List.map_cons]
    rw [uploadBatches_ok env h rest]

/-! ## Example environments used as witnesses -/

/-- An environment whose services always raise. -/
def errEnv : Env :=
  { searchSvc := fun _ => Except.error "boom",
    completionSvc := fun _ => Except.error "boom",
    createIndexSvc := fun _ => Except.error "boom",
    uploadSvc := fun _ => Except.error "boom",
    deploymentName := "gpt" }

/-- An environment whose services always succeed: search yields nothing and the
completion response has one choice with content "ok". -/
def okEnv : Env :=
  { searchSvc := fun _ => Except.ok [],
    completionSvc := fun _ => Except.ok
      { choices := [{ message := { role := "assistant", content := "ok" } }] },
    createIndexSvc := fun _ => Except.ok (),
    uploadSvc := fun _ => Except.ok [],
    deploymentName := "gpt" }

/-- A fully populated sample result. -/
def docA : Doc :=
  { id := some "1", title := some "A", content := some "alpha", category := none }

/-- A sample result with no title and no content value. -/
def docB : Doc :=
  { id := some "2", title := none, content := none, category := none }

/-! ## Claims -/

/-- C1: `rag_search` is exactly the two-stage pipeline: one search call whose
top parameter is the default `top_k = 5`, then one completion call on exactly
the retrieved results; the returned value is the pair of the results and the
generated response, and no other service call occurs. -/
theorem rag_search_two_stage (env : Env) (query : String) :
    rag_search env query =
      (((semantic_search env query 5).1,
        (generate_response env query (semantic_search env query 5).1).1),
       [ServiceCall.search (semanticSearchRequest query 5),
        ServiceCall.completion
          (genRequest env query (semantic_search env query 5).1)]) ∧
    semantic_search_default_top_k = 5 ∧
    semanticSearchRequest query 5 =
      { searchText := query, filter := none, top := some 5 } := by
  refine ⟨?_, rfl, rfl⟩
  show (((semantic_search env query 5).1,
        (generate_response env query (semantic_search env query 5).1).1),
       (semantic_search env query 5).2
         ++ (generate_response env query (semantic_search env query 5).1).2) = _
  rw [semantic_search_trace, generate_response_trace]
  rfl

/-- C3: `create_index` creates, under the configured index name, an index with
exactly four fields: the string key field id, the searchable string fields
title and content, and the filterable and facetable string field category. -/
theorem create_index_schema (env : Env) (index_name : String) :
    (create_index env index_name).2 =
      [ServiceCall.createIndex { name := index_name, fields := index_fields }] ∧
    index_fields.map SearchField.name = ["id", "title", "content", "category"] ∧
    index_fields.map SearchField.fieldType =
      ["Edm.String", "Edm.String", "Edm.String", "Edm.String"] ∧
    index_fields.map SearchField.key = [true, false, false, false] ∧
    index_fields.map SearchField.searchable = [false, true, true, false] ∧
    index_fields.map SearchField.filterable = [false, false, false, true] ∧
    index_fields.map SearchField.facetable = [false, false, false, true] := by
  refine ⟨?_, rfl, rfl, rfl, rfl, rfl, rfl⟩
  simp only [create_index]
  split <;> rfl

/-- C2: `generate_response` builds one prompt that contains the per-result
entries -- each result's title and content, with "" substituted for a missing
field -- contiguously and in the original order, followed by the original
query, and issues exactly one completion call carrying that prompt as the
single user message; there is no per-document call. -/
theorem generate_response_prompt (env : Env) (query : String) (rs : List Doc) :
    (generate_response env query rs).2 =
      [ServiceCall.completion (genRequest env query rs)] ∧
    (genRequest env query rs).messages =
      [systemMessage, { role := "user", content := buildPrompt query rs }] ∧
    (buildPrompt query rs).data =
      promptPre.data ++ (buildContext rs).data ++ promptMid.data ++ query.data
        ++ promptPost.data ∧
    ((rs.map fun r => (resultEntry r).data).flatten).Sublist
      (buildContext rs).data ∧
    ∀ r ∈ rs, (resultEntry r).data <:+: (buildContext rs).data ∧
      resultEntry r =
        "Title: " ++ r.title.getD "" ++ "\nContent: " ++ r.content.getD "" := by
  refine ⟨generate_response_trace env query rs, rfl, buildPrompt_data query rs,
    ?_, ?_⟩
  · have h := joinSep_flatten_sublist "\n\n" (rs.map resultEntry)
    rw [List.map_map] at h
    exact h
  · intro r hr
    exact ⟨joinSep_infix_of_mem "\n\n" (rs.map resultEntry) (resultEntry r)
      (List.mem_map_of_mem resultEntry hr), rfl⟩

/-- C2 witness at a concrete result list: one completion call is issued, the
entry of the first result occurs contiguously in the context, and the entry of
a result with missing fields substitutes empty strings. -/
theorem generate_response_prompt_witness :
    (generate_response okEnv "q" [docA, docB]).2 =
      [ServiceCall.completion (genRequest okEnv "q" [docA, docB])] ∧
    (resultEntry docA).data <:+: (buildContext [docA, docB]).data ∧
    resultEntry docB = "Title: " ++ "" ++ "\nContent: " ++ "" :=
  ⟨(generate_response_prompt okEnv "q" [docA, docB]).1,
   ((generate_response_prompt okEnv "q" [docA, docB]).2.2.2.2 docA
     (by decide)).1,
   ((generate_response_prompt okEnv "q" [docA, docB]).2.2.2.2 docB
     (by decide)).2⟩

/-- C4: each of the four search operations issues exactly one service call and,
when that call raises, catches the exception and returns the empty list: no
retry, no re-raise, no partial result on error. -/
theorem search_ops_catch_all (env : Env) (search_term category : String)
    (ast acat : Option String) (minimum_results : Nat) (query : String)
    (top_k : Nat) (e1 e2 e3 e4 : String)
    (h1 : env.searchSvc (keywordRequest search_term) = Except.error e1)
    (h2 : env.searchSvc (categoryRequest category) = Except.error e2)
    (h3 : env.searchSvc (advancedRequest ast acat minimum_results) =
      Except.error e3)
    (h4 : env.searchSvc (semanticSearchRequest query top_k) = Except.error e4) :
    search_by_keyword env search_term =
      ([], [ServiceCall.search (keywordRequest search_term)]) ∧
    search_by_category env category =
      ([], [ServiceCall.search (categoryRequest category)]) ∧
    advanced_search env ast acat minimum_results =
      ([], [ServiceCall.search (advancedRequest ast acat minimum_results)]) ∧
    semantic_search env query top_k =
      ([], [ServiceCall.search (semanticSearchRequest query top_k)]) := by
  refine ⟨?_, ?_, ?_, ?_⟩
  · simp only [search_by_keyword, h1]
  · simp only [search_by_category, h2]
  · simp only [advanced_search, h3]
  · simp only [semantic_search, h4]

/-- C4 witness: an environment whose search service always raises. -/
theorem search_ops_catch_all_witness :
    search_by_keyword errEnv "k" =
      ([], [ServiceCall.search (keywordRequest "k")]) ∧
    search_by_category errEnv "c" =
      ([], [ServiceCall.search (categoryRequest "c")]) ∧
    advanced_search errEnv (some "a") (some "c") 2 =
      ([], [ServiceCall.search (advancedRequest (some "a") (some "c") 2)]) ∧
    semantic_search errEnv "q" 5 =
      ([], [ServiceCall.search (semanticSearchRequest "q" 5)]) :=
  search_ops_catch_all errEnv "k" "c" (some "a") (some "c") 2 "q" 5
    "boom" "boom" "boom" "boom" rfl rfl rfl rfl

/-- C5: `advanced_search` passes minimum_results to the service as the top
(result-count limit) parameter of its single request; when the service honors
top, the returned list has at most minimum_results elements, so despite its
name the parameter is an upper bound, not a guaranteed minimum. -/
theorem advanced_search_top_is_upper_bound (env : Env)
    (search_term category : Option String) (minimum_results : Nat)
    (honors : ∀ req rs, env.searchSvc req = Except.ok rs →
      ∀ t, req.top = some t → rs.length ≤ t) :
    (advancedRequest search_term category minimum_results).top =
      some minimum_results ∧
    (advanced_search env search_term category minimum_results).2 =
      [ServiceCall.search (advancedRequest search_term category minimum_results)] ∧
    (advanced_search env search_term category minimum_results).1.length ≤
      minimum_results := by
  refine ⟨rfl,
    advanced_search_trace env search_term category minimum_results, ?_⟩
  simp only [advanced_search]
  split
  · rename_i rs heq
    split
    · exact honors _ rs heq minimum_results rfl
    · simp
  · simp

/-- C5 witness: a service honoring top (it always yields the empty list). -/
theorem advanced_search_top_is_upper_bound_witness :
    (advancedRequest (some "a") none 3).top = some 3 ∧
    (advanced_search okEnv (some "a") none 3).1.length ≤ 3 := by
  have honors : ∀ req rs, okEnv.searchSvc req = Except.ok rs →
      ∀ t, req.top = some t → rs.length ≤ t := by
    intro req rs h t ht
    injection h with h2
    subst h2
    simp
  exact ⟨(advanced_search_top_is_upper_bound okEnv (some "a") none 3 honors).1,
    (advanced_search_top_is_upper_bound okEnv (some "a") none 3 honors).2.2⟩

/-- C6: `generate_response` makes a single completion attempt; if the call
raises, the error is printed and exactly the fixed fallback string is
returned; otherwise the content of the first choice of the response. -/
theorem generate_response_error_handling (env : Env) (query : String)
    (rs : List Doc) :
    (generate_response env query rs).2 =
      [ServiceCall.completion (genRequest env query rs)] ∧
    (∀ e, env.completionSvc (genRequest env query rs) = Except.error e →
      (generate_response env query rs).1 =
        "I\x27m unable to generate a response at the moment.") ∧
    (∀ resp c cs, env.completionSvc (genRequest env query rs) = Except.ok resp →
      resp.choices = c :: cs →
      (generate_response env query rs).1 = c.message.content) := by
  refine ⟨generate_response_trace env query rs, ?_, ?_⟩
  · intro e he
    simp only [generate_response, he]
    rfl
  · intro resp c cs hresp hch
    simp only [generate_response, hresp, hch]

/-- C6 witness: a raising completion service yields the fixed string; a
succeeding one yields its first choice content. -/
theorem generate_response_error_handling_witness :
    (generate_response errEnv "q" []).1 =
      "I\x27m unable to generate a response at the moment." ∧
    (generate_response okEnv "q" []).1 = "ok" :=
  ⟨(generate_response_error_handling errEnv "q" []).2.1 "boom" rfl,
   (generate_response_error_handling okEnv "q" []).2.2
     { choices := [{ message := { role := "assistant", content := "ok" } }] }
     { message := { role := "assistant", content := "ok" } } [] rfl rfl⟩

/-- A document the search service can yield whose content value is missing. -/
def noContentDoc : Doc :=
  { id := none, title := some "T", content := none, category := some "AI" }

/-- A search service that yields exactly one result, without a content value. -/
def noContentEnv : Env :=
  { searchSvc := fun _ => Except.ok [noContentDoc],
    completionSvc := fun _ => Except.error "unused",
    createIndexSvc := fun _ => Except.ok (),
    uploadSvc := fun _ => Except.ok [],
    deploymentName := "gpt" }

/-- A search service that yields exactly one fully populated result. -/
def contentEnv : Env :=
  { searchSvc := fun _ => Except.ok [docA],
    completionSvc := fun _ => Except.error "unused",
    createIndexSvc := fun _ => Except.ok (),
    uploadSvc := fun _ => Except.ok [],
    deploymentName := "gpt" }

/-- C7 counterexample: the service yields a single result whose content value
is missing; printing it evaluates `None[:200]`, a TypeError, the blanket
except catches it, and `search_by_category` returns the empty list instead of
the list the service yielded. -/
theorem search_by_category_drops_yielded_results :
    noContentEnv.searchSvc (categoryRequest "AI") = Except.ok [noContentDoc] ∧
    (search_by_category noContentEnv "AI").1 = [] ∧
    (search_by_category noContentEnv "AI").1 ≠ [noContentDoc] := by
  refine ⟨rfl, rfl, ?_⟩
  decide

/-- C7 amended: `search_by_category` issues exactly one match-all search whose
filter is built by direct interpolation, and returns the full list the service
yields provided every yielded result has a content value (when one is missing,
the result printing raises and the empty list is returned). -/
theorem search_by_category_full_list (env : Env) (category : String) :
    (search_by_category env category).2 =
      [ServiceCall.search (categoryRequest category)] ∧
    categoryRequest category =
      { searchText := "*",
        filter := some ("category eq \x27" ++ category ++ "\x27"),
        top := none } ∧
    ∀ rs, env.searchSvc (categoryRequest category) = Except.ok rs →
      (∀ r ∈ rs, r.content.isSome = true) →
      (search_by_category env category).1 = rs := by
  refine ⟨search_by_category_trace env category, rfl, ?_⟩
  intro rs hrs hall
  have hp : printableResults rs = true := by
    simp only [printableResults, List.all_eq_true]
    exact fun r hr => hall r hr
  simp only [search_by_category, hrs]
  rw [if_pos hp]

/-- C7 amended witness: a service yielding one fully populated result. -/
theorem search_by_category_full_list_witness :
    (search_by_category contentEnv "AI").1 = [docA] :=
  (search_by_category_full_list contentEnv "AI").2.2 [docA] rfl (by decide)

/-- C9: upload_documents partitions its input into consecutive batches of at
most 1000 in the original order; when the uploads succeed, the uploaded batch
payloads concatenate back to exactly the input list (each document uploaded
exactly once); an empty input returns immediately with no service call. -/
theorem upload_documents_batches (env : Env) (documents : List Doc)
    (h : ∀ b, ∃ u, env.uploadSvc b = Except.ok u) :
    (chunkBy 1000 documents).flatten = documents ∧
    (∀ b ∈ chunkBy 1000 documents, b.length ≤ 1000) ∧
    (upload_documents env documents).2 =
      (chunkBy 1000 documents).map ServiceCall.uploadBatch ∧
    (documents = [] → (upload_documents env documents).2 = []) := by
  refine ⟨chunkByFuel_flatten 1000 documents.length documents le_rfl,
    chunkByFuel_length_le 1000 (by omega) documents.length documents le_rfl,
    ?_, ?_⟩
  · simp only [upload_documents]
    split
    · rename_i he
      rw [List.isEmpty_iff] at he
      subst he
      rfl
    · exact uploadBatches_ok env h (chunkBy 1000 documents)
  · intro hd
    subst hd
    rfl

/-- C9 witness: two documents form a single batch that is uploaded once. -/
theorem upload_documents_batches_witness :
    (chunkBy 1000 [docA, docB]).flatten = [docA, docB] ∧
    (upload_documents okEnv [docA, docB]).2 =
      (chunkBy 1000 [docA, docB]).map ServiceCall.uploadBatch :=
  ⟨(upload_documents_batches okEnv [docA, docB] (fun _ => ⟨[], rfl⟩)).1,
   (upload_documents_batches okEnv [docA, docB] (fun _ => ⟨[], rfl⟩)).2.2.1⟩

/-- Every call a menu step issues is a search call. -/
theorem menuStep_only_search (env : Env) (choice : String) (rest : List String) :
    ∀ c ∈ (menuStep env choice rest).1, ∃ req, c = ServiceCall.search req := by
  intro c hc
  simp only [menuStep] at hc
  split at hc
  · split at hc
    · exact absurd hc (List.not_mem_nil c)
    · rename_i t r1
      rw [search_by_keyword_trace] at hc
      rw [List.mem_singleton] at hc
      exact ⟨_, hc⟩
  · split at hc
    · split at hc
      · exact absurd hc (List.not_mem_nil c)
      · rename_i t r1
        rw [search_by_category_trace] at hc
        rw [List.mem_singleton] at hc
        exact ⟨_, hc⟩
    · split at hc
      · split at hc
        · rename_i t cat m r1
          rw [advanced_search_trace] at hc
          rw [List.mem_singleton] at hc
          exact ⟨_, hc⟩
        · exact absurd hc (List.not_mem_nil c)
      · exact absurd hc (List.not_mem_nil c)

/-- The menu loop issues only search calls (keyword, category or advanced). -/
theorem menuLoopFuel_only_search (env : Env) :
    ∀ (fuel : Nat) (inputs : List String),
      ∀ c ∈ menuLoopFuel env fuel inputs, ∃ req, c = ServiceCall.search req
  | fuel, [] => by
    intro c hc
    cases fuel <;> exact absurd hc (List.not_mem_nil c)
  | 0, choice :: rest => by
    intro c hc
    exact absurd hc (List.not_mem_nil c)
  | fuel + 1, choice :: rest => by
    intro c hc
    simp only [menuLoopFuel] at hc
    split at hc
    · exact absurd hc (List.not_mem_nil c)
    · rcases List.mem_append.mp hc with hm | hm
      · exact menuStep_only_search env choice rest c hm
      · exact menuLoopFuel_only_search env fuel (menuStep env choice rest).2 c hm

/-- C8: `main` of AzureSearch.py first attempts index creation, then uploads
the 15 sample documents (one batch), and only then runs the interactive menu
loop; the menu loop issues only search calls, so no search call precedes the
index-creation and upload attempts in the trace. -/
theorem main_order (env : Env) (inputs : List String) :
    mainTrace env inputs =
      ServiceCall.createIndex { name := main_index_name, fields := index_fields } ::
        ServiceCall.uploadBatch sample_documents :: menuLoop env inputs ∧
    sample_documents.length = 15 ∧
    ∀ c ∈ menuLoop env inputs, ∃ req, c = ServiceCall.search req := by
  refine ⟨?_, rfl, menuLoopFuel_only_search env inputs.length inputs⟩
  simp only [mainTrace]
  have h1 : (create_index env main_index_name).2 =
      [ServiceCall.createIndex { name := main_index_name, fields := index_fields }] := by
    simp only [create_index]
    split <;> rfl
  have h2 : (upload_documents env sample_documents).2 =
      [ServiceCall.uploadBatch sample_documents] := by
    have hch : chunkBy 1000 sample_documents = [sample_documents] := rfl
    simp only [upload_documents]
    rw [if_neg (by decide), hch]
    simp only [uploadBatches]
    split <;> rfl
  rw [h1, h2]
  rfl

/-- C8 witness: with concrete services and the exit input, the trace begins
with index creation, then the sample upload. -/
theorem main_order_witness :
    mainTrace okEnv ["4"] =
      ServiceCall.createIndex { name := main_index_name, fields := index_fields } ::
        ServiceCall.uploadBatch sample_documents :: menuLoop okEnv ["4"] ∧
    sample_documents.length = 15 :=
  ⟨(main_order okEnv ["4"]).1, (main_order okEnv ["4"]).2.1⟩

/-- C10: loading AzureSearch.py raises the ValueError exactly when at least one
of the three environment variables is unset or empty; when all three are
present and nonempty, initialization succeeds and the configuration (from
which credential and index client are built) is produced. -/
theorem moduleInit_validation (getenv : String → Option String) :
    (moduleInit getenv = Except.error missingEnvMessage ↔
      ¬(pyTruthy (getenv "search_service_name") = true ∧
        pyTruthy (getenv "search_api_key") = true ∧
        pyTruthy (getenv "endpoint") = true)) ∧
    ((pyTruthy (getenv "search_service_name") = true ∧
      pyTruthy (getenv "search_api_key") = true ∧
      pyTruthy (getenv "endpoint") = true) →
      ∃ cfg, moduleInit getenv = Except.ok cfg) := by
  cases hsn : pyTruthy (getenv "search_service_name") <;>
    cases hak : pyTruthy (getenv "search_api_key") <;>
      cases hep : pyTruthy (getenv "endpoint") <;>
        simp [moduleInit, hsn, hak, hep]

/-- C10 witness: all three variables set and nonempty, initialization
succeeds. -/
theorem moduleInit_validation_witness :
    ∃ cfg, moduleInit (fun _ => some "x") = Except.ok cfg :=
  (moduleInit_validation (fun _ => some "x")).2 (by decide)

end AzureRAG
